import Mathlib

/-!
Verification of the construction-PM template toolchain: the template builder
(`scripts/build-template.js`), the cost estimator (`scripts/estimate-cost.js`),
the input validator (`scripts/validate-inputs.js`) and the deployment
orchestrator (`scripts/deploy-construction.js`).  Each JavaScript function is
shallowly embedded as a Lean definition; ambient effects (wall clock, file
system, the Notion API) appear as explicit parameters or oracles.
-/

namespace ConstPM

/-! ### JavaScript string primitives -/

/-- Models `String.prototype.includes`: `pat` occurs contiguously in `s`. -/
def strIncludes (s pat : String) : Bool :=
  (s.toList.tails).any (fun t => pat.toList.isPrefixOf t)

/-- Models `String.prototype.toLowerCase` (ASCII, which is all the sources use). -/
def strLower (s : String) : String :=
  String.mk (s.toList.map Char.toLower)

/-- Truthiness of an optional string, as JavaScript sees an environment
variable or object field: `undefined` and the empty string are falsy. -/
def jsTruthy (o : Option String) : Bool :=
  match o with
  | none => false
  | some s => !(s == "")

/-- Models the JavaScript idiom `x || d` on an optional string `x`. -/
def jsOr (o : Option String) (d : String) : String :=
  match o with
  | none => d
  | some s => if s == "" then d else s

/-! ### Tier catalog (`templateConfigs` in `scripts/build-template.js`)

The tier identifier is one of a closed three-element set; the builder throws
on anything else before reaching the catalog, so the catalog is total on
`Tier`. -/

inductive Tier
  | starter
  | professional
  | enterprise
deriving DecidableEq, Repr

/-- The tier identifier string as the scripts spell it. -/
def Tier.name : Tier → String
  | .starter => "starter"
  | .professional => "professional"
  | .enterprise => "enterprise"

structure TemplateConfig where
  databases : List String
  views : List String
  features : List String
deriving DecidableEq, Repr

/-- `templateConfigs` from `scripts/build-template.js`, verbatim. -/
def templateConfigs : Tier → TemplateConfig
  | .starter =>
    { databases := ["projects", "tasks", "clients", "documents", "team-members"]
      views := ["active-projects", "pending-tasks", "client-overview", "recent-documents"]
      features := ["basic-project-tracking", "task-management",
                   "client-contact-management", "document-storage"] }
  | .professional =>
    { databases := ["projects", "tasks", "clients", "documents", "team-members",
                    "materials", "vendors", "budgets", "expenses", "schedules"]
      views := ["project-dashboard", "task-kanban", "client-portal", "material-inventory",
                "vendor-directory", "budget-tracking", "expense-reports", "project-timeline"]
      features := ["all-starter-features", "material-management", "vendor-management",
                   "budget-tracking", "expense-management", "project-scheduling",
                   "reporting-dashboard"] }
  | .enterprise =>
    { databases := ["projects", "tasks", "clients", "documents", "team-members",
                    "materials", "vendors", "budgets", "expenses", "schedules",
                    "portfolios", "contracts", "reports", "integrations", "automations"]
      views := ["portfolio-overview", "project-dashboard", "task-kanban", "client-portal",
                "material-inventory", "vendor-directory", "budget-tracking",
                "expense-reports", "project-timeline", "contract-management",
                "analytics-dashboard", "integration-hub"]
      features := ["all-professional-features", "portfolio-management", "contract-management",
                   "advanced-analytics", "custom-integrations", "workflow-automation",
                   "multi-project-tracking", "enterprise-reporting"] }

/-! ### Schema model

A stored database schema is JSON: a title and a `properties` object mapping a
field name to a property definition with a `type` string plus the optional
kind-specific parameters the scripts read (`options`, `format`).  An object
field is modelled as an association list to preserve insertion order; an
absent field is `none`. -/

structure PropDef where
  type : String
  options : Option (List String)
  format : Option String
deriving DecidableEq, Repr

structure SchemaDef where
  title : Option String
  properties : Option (List (String × PropDef))
deriving DecidableEq, Repr

/-- An element of the build package's `schemas` list: `{ name, schema, tier }`. -/
structure BuiltSchema where
  name : String
  schema : SchemaDef
  tier : String
deriving DecidableEq, Repr

/-- `generateDefaultSchemas` from `scripts/build-template.js`: the fallback used
when the schema directory does not exist — a single `projects` schema. -/
def generateDefaultSchemas (tier : Tier) : List BuiltSchema :=
  [{ name := "projects"
     schema :=
       { title := some "Projects"
         properties := some
           [("Name", { type := "title", options := none, format := none }),
            ("Status", { type := "select"
                         options := some ["Planning", "In Progress", "Completed"]
                         format := none }),
            ("Budget", { type := "number", options := none, format := some "dollar" })] }
     tier := tier.name }]

/-- `buildDatabaseSchemas` from `scripts/build-template.js`.  The file-backed
schema store is modelled at its boundary: `store = some entries` is the list of
`.json` files (base name, parsed content) in directory-listing order, and
`store = none` is the absent-directory case, whose `catch` branch falls back to
`generateDefaultSchemas`.  A store entry is included exactly when its name is
in the tier configuration's database list. -/
def buildDatabaseSchemas (tier : Tier) (store : Option (List (String × SchemaDef))) :
    List BuiltSchema :=
  match store with
  | none => generateDefaultSchemas tier
  | some entries =>
    entries.filterMap (fun e =>
      if (templateConfigs tier).databases.contains e.1 then
        some { name := e.1, schema := e.2, tier := tier.name }
      else none)

/-! ### View configurations (`buildViewConfigurations` and helpers) -/

/-- `getViewType` from `scripts/build-template.js`: substring dispatch on the
view name. -/
def getViewType (viewName : String) : String :=
  if strIncludes viewName "kanban" then "kanban"
  else if strIncludes viewName "timeline" || strIncludes viewName "schedule" then "timeline"
  else if strIncludes viewName "dashboard" || strIncludes viewName "overview" then "table"
  else if strIncludes viewName "calendar" then "calendar"
  else "table"

structure ViewSortSpec where
  property : String
  direction : String
deriving DecidableEq, Repr

structure ViewConfigSpec where
  filters : List String
  sorts : List ViewSortSpec
  properties : List String
  groupBy : Option String
deriving DecidableEq, Repr

/-- `generateViewConfig` from `scripts/build-template.js`. -/
def generateViewConfig (viewName : String) (_tier : Tier) : ViewConfigSpec :=
  { filters := []
    sorts := [{ property := "created_time", direction := "descending" }]
    properties := ["title", "status", "created_time"]
    groupBy := if strIncludes viewName "status" then some "status" else none }

/-- `getViewDatabases` from `scripts/build-template.js`. -/
def getViewDatabases (viewName : String) : List String :=
  let databaseMappings : List (String × List String) :=
    [("active-projects", ["projects"]),
     ("pending-tasks", ["tasks"]),
     ("client-overview", ["clients"]),
     ("project-dashboard", ["projects", "tasks"]),
     ("task-kanban", ["tasks"]),
     ("material-inventory", ["materials"]),
     ("vendor-directory", ["vendors"]),
     ("budget-tracking", ["budgets"]),
     ("portfolio-overview", ["portfolios", "projects"])]
  match databaseMappings.lookup viewName with
  | some dbs => dbs
  | none => ["projects"]

structure ViewSpec where
  name : String
  type : String
  configuration : ViewConfigSpec
  databases : List String
deriving DecidableEq, Repr

/-- `buildViewConfigurations` from `scripts/build-template.js`. -/
def buildViewConfigurations (tier : Tier) : List ViewSpec :=
  (templateConfigs tier).views.map (fun viewName =>
    { name := viewName
      type := getViewType viewName
      configuration := generateViewConfig viewName tier
      databases := getViewDatabases viewName })

/-! ### Sample data (`generateSampleData` and helpers)

The generators read the wall clock once per record for date fields; the clock
is passed in as `now` (milliseconds).  The source renders `now + offset` as an
ISO date string; the rendered instant is kept as the number itself here. -/

structure SampleProject where
  title : String
  status : String
  type : String
  budget : Nat
  startDate : Nat
  description : String
deriving DecidableEq, Repr

/-- `generateSampleProjects` from `scripts/build-template.js`. -/
def generateSampleProjects (tier : Tier) (client : String) (now : Nat) : List SampleProject :=
  let projectCount :=
    match tier with
    | .starter => 2
    | .professional => 5
    | .enterprise => 8
  (List.range projectCount).map (fun j =>
    let i := j + 1
    { title := client ++ " Project " ++ toString i
      status := if i = 1 then "In Progress" else if i = 2 then "Planning" else "Not Started"
      type := "Commercial Construction"
      budget := 100000 * i
      startDate := now + i * 7 * 24 * 60 * 60 * 1000
      description := "Sample construction project " ++ toString i ++ " for " ++ client })

structure SampleTask where
  title : String
  status : String
  priority : String
  dueDate : Nat
deriving DecidableEq, Repr

/-- `generateSampleTasks` from `scripts/build-template.js`. -/
def generateSampleTasks (tier : Tier) (now : Nat) : List SampleTask :=
  let taskCount :=
    match tier with
    | .starter => 10
    | .professional => 25
    | .enterprise => 40
  let taskTypes := ["Foundation", "Framing", "Electrical", "Plumbing", "Roofing", "Finishing"]
  (List.range taskCount).map (fun j =>
    let i := j + 1
    { title := taskTypes.getD (i % taskTypes.length) "" ++ " - Task " ++ toString i
      status := if i % 3 = 0 then "Completed" else if i % 3 = 1 then "In Progress"
                else "Not Started"
      priority := if i % 4 = 0 then "High" else "Normal"
      dueDate := now + i * 24 * 60 * 60 * 1000 })

structure SampleClient where
  name : String
  type : String
  contact : String
  phone : String
  status : String
deriving DecidableEq, Repr

/-- `generateSampleClients` from `scripts/build-template.js`. -/
def generateSampleClients (_tier : Tier) (client : String) : List SampleClient :=
  [{ name := client, type := "Primary Client", contact := "project@example.com"
     phone := "(555) 123-4567", status := "Active" }]

/-- A sample material; the source's dollar costs (`0.75` for lumber) are kept
as exact rationals. -/
structure SampleMaterial where
  name : String
  unit : String
  cost : ℚ
  supplier : String
deriving DecidableEq, Repr

/-- `generateSampleMaterials` from `scripts/build-template.js`. -/
def generateSampleMaterials (_tier : Tier) : List SampleMaterial :=
  [{ name := "Concrete", unit := "cubic yards", cost := 120, supplier := "ABC Concrete" },
   { name := "Steel Rebar", unit := "tons", cost := 800, supplier := "Steel Supply Co" },
   { name := "2x4 Lumber", unit := "board feet", cost := 3 / 4, supplier := "Lumber Depot" }]

structure SampleVendor where
  name : String
  type : String
  contact : String
deriving DecidableEq, Repr

/-- `generateSampleVendors` from `scripts/build-template.js`. -/
def generateSampleVendors (_tier : Tier) : List SampleVendor :=
  [{ name := "ABC Concrete", type := "Material Supplier", contact := "orders@abcconcrete.com" },
   { name := "Steel Supply Co", type := "Material Supplier", contact := "sales@steelsupply.com" },
   { name := "Elite Electrical", type := "Subcontractor", contact := "jobs@eliteelectric.com" }]

inductive SampleRecords
  | projects (rows : List SampleProject)
  | tasks (rows : List SampleTask)
  | clients (rows : List SampleClient)
  | materials (rows : List SampleMaterial)
  | vendors (rows : List SampleVendor)
deriving DecidableEq, Repr

/-- `generateSampleData` from `scripts/build-template.js`: the object is built
with `materials`/`vendors` set to `null` for the tiers that exclude them and
the `null` keys then deleted; the surviving key order is modelled directly. -/
def generateSampleData (tier : Tier) (client : String) (now : Nat) :
    List (String × SampleRecords) :=
  [("projects", SampleRecords.projects (generateSampleProjects tier client now)),
   ("tasks", SampleRecords.tasks (generateSampleTasks tier now)),
   ("clients", SampleRecords.clients (generateSampleClients tier client))]
  ++ (if tier ≠ Tier.starter
      then [("materials", SampleRecords.materials (generateSampleMaterials tier))] else [])
  ++ (if tier = Tier.enterprise ∨ tier = Tier.professional
      then [("vendors", SampleRecords.vendors (generateSampleVendors tier))] else [])

/-! ### The build package (`buildTemplate`) -/

structure TemplateBranding where
  companyName : String
  logo : Option String
  colorScheme : String
deriving DecidableEq, Repr

structure TemplateSettings where
  timezone : String
  dateFormat : String
  currency : String
  measurementUnit : String
deriving DecidableEq, Repr

structure TemplateCustomizations where
  branding : TemplateBranding
  settings : TemplateSettings
deriving DecidableEq, Repr

structure GeneratedTemplateConfig where
  client : String
  tier : String
  includeSampleData : Bool
  customizations : TemplateCustomizations
  features : List String
  databases : List String
  views : List String
deriving DecidableEq, Repr

/-- `generateTemplateConfig` from `scripts/build-template.js`. -/
def generateTemplateConfig (client : String) (tier : Tier) (sampleData : Bool) :
    GeneratedTemplateConfig :=
  { client := client
    tier := tier.name
    includeSampleData := sampleData
    customizations :=
      { branding := { companyName := client, logo := none, colorScheme := "construction-blue" }
        settings := { timezone := "UTC", dateFormat := "MM/DD/YYYY", currency := "USD"
                      measurementUnit := "imperial" } }
    features := (templateConfigs tier).features
    databases := (templateConfigs tier).databases
    views := (templateConfigs tier).views }

structure TemplateDocs where
  setup : String
  features : String
  api : String
  troubleshooting : String
deriving DecidableEq, Repr

/-- `generateDocumentation` from `scripts/build-template.js`. -/
def generateDocumentation (client : String) (tier : Tier) : TemplateDocs :=
  { setup := "Setup guide for " ++ tier.name ++ " tier construction template"
    features := "Feature documentation for " ++ client
    api := "API integration documentation"
    troubleshooting := "Common issues and solutions" }

/-- `buildIntegrationConfigs` from `scripts/build-template.js` (currently empty). -/
def buildIntegrationConfigs (_tier : Tier) : List String := []

structure BuildMetadata where
  buildDuration : Nat
  includedFeatures : Nat
  databaseCount : Nat
  viewCount : Nat
deriving DecidableEq, Repr

/-- The build package as `buildTemplate` assembles it.  `buildId` and
`timestamp` are fresh wall-clock strings and are omitted; `version` is read
from `package.json` with a `"1.0.0"` fallback and is kept as an opaque field. -/
structure BuildPackage where
  client : String
  tier : String
  version : String
  config : GeneratedTemplateConfig
  schemas : List BuiltSchema
  views : List ViewSpec
  sampleData : Option (List (String × SampleRecords))
  integrations : List String
  documentation : TemplateDocs
  metadata : BuildMetadata
deriving DecidableEq, Repr

/-- `buildTemplate` from `scripts/build-template.js`.  The schema store and the
clock are explicit; the `dist/` writes are out of scope.  The build duration is
the elapsed wall clock, modelled as zero since no claim reads it.  Note the
source performs no validation of `client` on this path. -/
def buildTemplate (client : String) (tier : Tier) (sampleData : Bool)
    (store : Option (List (String × SchemaDef))) (now : Nat) : BuildPackage :=
  let templateConfig := generateTemplateConfig client tier sampleData
  let schemas := buildDatabaseSchemas tier store
  let views := buildViewConfigurations tier
  let sd := if sampleData then some (generateSampleData tier client now) else none
  let integrations := buildIntegrationConfigs tier
  let documentation := generateDocumentation client tier
  { client := client
    tier := tier.name
    version := "1.0.0"
    config := templateConfig
    schemas := schemas
    views := views
    sampleData := sd
    integrations := integrations
    documentation := documentation
    metadata :=
      { buildDuration := 0
        includedFeatures := (templateConfigs tier).features.length
        databaseCount := schemas.length
        viewCount := views.length } }

/-! ### Client-name validation (`scripts/validate-inputs.js`) -/

/-- The character class of the `problematicChars` regular expression in
`validateClientName`. -/
def problematicChars : List Char :=
  ['<', '>', ':', '\"', '/', '\\', '|', '?', '*']

/-- The reserved-word list in `validateClientName`. -/
def reservedWords : List String :=
  ["notion", "template", "system", "admin", "api"]

/-- `validateClientName` from `scripts/validate-inputs.js`: rejects names with
path-unsafe characters, then names equal (case-insensitively) to a reserved
word.  It performs no emptiness check — minimum length is enforced separately
by the Joi schema (`min(2)`). -/
def validateClientName (client : String) : Except String Unit :=
  if client.toList.any (fun c => problematicChars.contains c) then
    Except.error "Client name contains invalid characters"
  else if reservedWords.contains (strLower client) then
    Except.error "Client name cannot be a reserved word"
  else
    Except.ok ()

/-! ### Cost estimator (`scripts/estimate-cost.js`) -/

/-- One tier's entry in the `tierCosts` table: provisioning counts plus the
per-category sample-record counts. -/
structure TierCost where
  databases : Nat
  views : Nat
  pages : Nat
  properties : Nat
  integrations : Nat
  automations : Nat
  sampleData : List (String × Nat)
deriving DecidableEq, Repr

/-- `tierCosts` from `scripts/estimate-cost.js`, verbatim. -/
def tierCosts : Tier → TierCost
  | .starter =>
    { databases := 8, views := 15, pages := 50, properties := 40
      integrations := 0, automations := 5
      sampleData := [("projects", 3), ("tasks", 25), ("clients", 5), ("materials", 20)] }
  | .professional =>
    { databases := 15, views := 35, pages := 150, properties := 100
      integrations := 10, automations := 20
      sampleData := [("projects", 8), ("tasks", 80), ("clients", 15), ("materials", 100),
                     ("vendors", 12), ("budgets", 8)] }
  | .enterprise =>
    { databases := 25, views := 60, pages := 300, properties := 200
      integrations := 25, automations := 40
      sampleData := [("projects", 15), ("tasks", 200), ("clients", 30), ("materials", 250),
                     ("vendors", 25), ("budgets", 15), ("reports", 20), ("portfolios", 5)] }

/-- `apiWeights` from `scripts/estimate-cost.js`. -/
structure ApiWeights where
  createDatabase : Nat
  updateDatabase : Nat
  createPage : Nat
  updatePage : Nat
  addProperty : Nat
  createView : Nat
  setupIntegration : Nat
  createAutomation : Nat
  uploadFile : Nat

def apiWeights : ApiWeights :=
  { createDatabase := 2, updateDatabase := 1, createPage := 1, updatePage := 1
    addProperty := 1, createView := 1, setupIntegration := 3, createAutomation := 2
    uploadFile := 1 }

/-- `Math.ceil (a / b)` on non-negative integers. -/
def ceilDiv (a b : Nat) : Nat := (a + b - 1) / b

/-- The estimator's result; the derived presentation fields (`formatted` time,
`rateLimit` text, `cost`, `recommendations`) are pure renderings of these
numbers and are not modelled. -/
structure CostEstimate where
  tier : String
  totalApiCalls : Nat
  estimatedSeconds : Nat
  estimatedMinutes : Nat
  breakdown : List (String × Nat)
  includeSampleData : Bool
deriving DecidableEq, Repr

/-- `estimateDeploymentCost` from `scripts/estimate-cost.js`.  The source takes
`options` and sets `includeSampleData := options.sampleData !== false`; the
resolved boolean is the parameter here.  Unknown tiers throw before this logic
and are excluded by the `Tier` type. -/
def estimateDeploymentCost (tier : Tier) (includeSampleData : Bool) : CostEstimate :=
  let tierConfig := tierCosts tier
  let databaseCalls := tierConfig.databases * apiWeights.createDatabase
  let viewCalls := tierConfig.views * apiWeights.createView
  let propertyCalls := tierConfig.properties * apiWeights.addProperty
  let integrationCalls := tierConfig.integrations * apiWeights.setupIntegration
  let automationCalls := tierConfig.automations * apiWeights.createAutomation
  let sampleDataCalls :=
    ((tierConfig.sampleData.map Prod.snd).sum) * apiWeights.createPage
  let baseCalls := 20
  let totalApiCalls :=
    databaseCalls + viewCalls + propertyCalls + integrationCalls + automationCalls
      + (if includeSampleData then sampleDataCalls else 0) + baseCalls
  let estimatedSeconds := ceilDiv totalApiCalls 3
  let estimatedMinutes := ceilDiv estimatedSeconds 60
  { tier := tier.name
    totalApiCalls := totalApiCalls
    estimatedSeconds := estimatedSeconds
    estimatedMinutes := estimatedMinutes
    breakdown :=
      [("databases", databaseCalls), ("views", viewCalls), ("properties", propertyCalls),
       ("integrations", integrationCalls), ("automations", automationCalls)]
      ++ (if includeSampleData then [("sampleData", sampleDataCalls)] else [])
      ++ [("baseSetup", baseCalls)]
    includeSampleData := includeSampleData }

/-- Total seed-record count of a tier-cost entry, as the estimator sums it. -/
def sampleDataTotal (tc : TierCost) : Nat := (tc.sampleData.map Prod.snd).sum

/-! ### Deployment orchestrator (`scripts/deploy-construction.js`)

The module-global `deploymentState` is threaded explicitly.  The remote Notion
client is an oracle (`RemoteApi`) giving each call's outcome, and the sequence
of remote creation calls actually issued is recorded in a trace so that
"no create call was made" is a provable statement.  `startTime` and the pacing
sleeps are timing-only and not modelled. -/

structure CreatedResource where
  type : String
  name : Option String
  id : String
deriving DecidableEq, Repr

structure DeploymentError where
  phase : String
  resource : String
  error : String
deriving DecidableEq, Repr

structure DeploymentState where
  client : Option String
  tier : Option String
  completedSteps : List String
  createdResources : List CreatedResource
  errors : List DeploymentError
deriving DecidableEq, Repr

def initialDeploymentState : DeploymentState :=
  { client := none, tier := none, completedSteps := [], createdResources := [], errors := [] }

/-- The environment variables the deploy script reads (`none` = unset). -/
structure DeployEnv where
  clientName : Option String
  deploymentTier : Option String
  notionToken : Option String
  includeSampleData : Option String
deriving DecidableEq, Repr

/-- A remote creation/probing operation issued to the Notion API.  Each
database creation (together with its parent-page search/creation, whose
failures surface through the same per-database `catch`) is one trace entry. -/
inductive RemoteCall
  | identityProbe
  | databaseCreate (name : String)
  | recordCreate (databaseName : String)
  | summaryPageCreate
deriving DecidableEq, Repr

/-- Outcomes of the remote calls: the `i`-th database create (counting from 0
across the run) yields a remote id or an error message, and likewise for
record creates.  This models an arbitrary pattern of per-resource failures. -/
structure RemoteApi where
  probeResult : Except String String
  databaseCreateResult : Nat → Except String String
  recordCreateResult : Nat → Except String Unit
  summaryPageResult : Except String String

/-- An element of `buildPackage.schemas` as the deploy script reads it. -/
structure DeploySchema where
  name : String
  schema : SchemaDef
deriving DecidableEq, Repr

/-- One sample-data row: the parsed JSON record's fields.  Only its presence
drives the orchestrator's control flow. -/
abbrev SampleRow := List (String × String)

/-- The build-package fields the deploy script reads. -/
structure DeployPackage where
  client : String
  tier : String
  schemas : List DeploySchema
  sampleData : Option (List (String × List SampleRow))
deriving DecidableEq, Repr

/-- The orchestrator's run-local data: the mutable `deploymentState`, the trace
of remote calls issued, and the running indices into the two outcome oracles. -/
structure RunState where
  st : DeploymentState
  calls : List RemoteCall
  databaseCalls : Nat
  recordCalls : Nat
deriving Repr

def initialRunState : RunState :=
  { st := initialDeploymentState, calls := [], databaseCalls := 0, recordCalls := 0 }

/-- `initializeEnvironment` from `scripts/deploy-construction.js` (renamed):
copies `CLIENT_NAME` and `DEPLOYMENT_TIER || 'professional'` into the state,
then hard-fails on a missing (or empty, which JavaScript treats the same)
`CLIENT_NAME` or `NOTION_TOKEN`. -/
def initEnvironment (env : DeployEnv) (rs : RunState) : Except String Unit × RunState :=
  let st0 := { rs.st with
    client := env.clientName
    tier := some (jsOr env.deploymentTier "professional") }
  if jsTruthy env.clientName = false then
    (Except.error "CLIENT_NAME environment variable is required", { rs with st := st0 })
  else if jsTruthy env.notionToken = false then
    (Except.error "NOTION_TOKEN environment variable is required", { rs with st := st0 })
  else
    (Except.ok (),
     { rs with st := { st0 with completedSteps := st0.completedSteps ++ ["environment_init"] } })

/-- `loadBuildArtifacts` from `scripts/deploy-construction.js`.  `artifact`
models the lexicographically-latest `dist/template-<tier>-*.json`; both the
missing-directory and the no-matching-file errors are rethrown by the same
`catch` with the directory message, so absence is one case. -/
def loadBuildArtifacts (artifact : Option DeployPackage) (rs : RunState) :
    Except String DeployPackage × RunState :=
  match artifact with
  | none =>
    (Except.error "Build artifacts directory not found. Run build-template.js first.", rs)
  | some bp =>
    (Except.ok bp,
     { rs with st := { rs.st with completedSteps := rs.st.completedSteps ++ ["artifacts_loaded"] } })

/-- `initializeNotionClient` from `scripts/deploy-construction.js` (renamed):
issues the identity probe (`notion.users.me()`); a probe failure is rethrown
as a hard failure. -/
def initNotionClient (api : RemoteApi) (rs : RunState) : Except String Unit × RunState :=
  let rs1 := { rs with calls := rs.calls ++ [RemoteCall.identityProbe] }
  match api.probeResult with
  | Except.error e => (Except.error ("Failed to connect to Notion: " ++ e), rs1)
  | Except.ok _ =>
    (Except.ok (),
     { rs1 with st := { rs1.st with
        completedSteps := rs1.st.completedSteps ++ ["notion_connected"] } })

/-- The `for` loop of `deployPhase1_Databases`: each schema gets one create
attempt; success appends a `CreatedResource`, failure appends a
`DeploymentError` and the loop continues. -/
def runDatabases (api : RemoteApi) : List DeploySchema → RunState → RunState
  | [], rs => rs
  | d :: rest, rs =>
    let result := api.databaseCreateResult rs.databaseCalls
    let rs1 := { rs with
      calls := rs.calls ++ [RemoteCall.databaseCreate d.name]
      databaseCalls := rs.databaseCalls + 1 }
    match result with
    | Except.ok rid =>
      runDatabases api rest
        { rs1 with st := { rs1.st with
            createdResources := rs1.st.createdResources
              ++ [{ type := "database", name := some d.name, id := rid }] } }
    | Except.error m =>
      runDatabases api rest
        { rs1 with st := { rs1.st with
            errors := rs1.st.errors
              ++ [{ phase := "databases", resource := d.name, error := m }] } }

/-- `deployPhase1_Databases` from `scripts/deploy-construction.js`. -/
def deployPhase1 (api : RemoteApi) (bp : DeployPackage) (rs : RunState) : RunState :=
  let rs1 := runDatabases api bp.schemas rs
  { rs1 with st := { rs1.st with
      completedSteps := rs1.st.completedSteps ++ ["databases_deployed"] } }

/-- `deployPhase2_Views`: no remote calls, only the step record. -/
def deployPhase2 (rs : RunState) : RunState :=
  { rs with st := { rs.st with
      completedSteps := rs.st.completedSteps ++ ["views_deployed"] } }

/-- The record loop of `addSampleDataToDatabase`: up to five creates, each
failure only logged (`console.warn`) — the deployment state is untouched. -/
def addRows (api : RemoteApi) (databaseName : String) : List SampleRow → RunState → RunState
  | [], rs => rs
  | _row :: rest, rs =>
    let _result := api.recordCreateResult rs.recordCalls
    addRows api databaseName rest
      { rs with
        calls := rs.calls ++ [RemoteCall.recordCreate databaseName]
        recordCalls := rs.recordCalls + 1 }

/-- The resource loop of `deployPhase3_SampleData` over the resources created
so far: only `database` resources get records, looked up by name
(`sampleData[database.name]`; a missing key means no creates). -/
def runSampleData (api : RemoteApi) (sd : List (String × List SampleRow)) :
    List CreatedResource → RunState → RunState
  | [], rs => rs
  | r :: rest, rs =>
    if r.type = "database" then
      let rows :=
        match r.name with
        | some nm => (sd.lookup nm).getD []
        | none => []
      runSampleData api sd rest (addRows api (r.name.getD "") (rows.take 5) rs)
    else
      runSampleData api sd rest rs

/-- `deployPhase3_SampleData`: skipped entirely (without recording the step)
when the package has no sample data or `INCLUDE_SAMPLE_DATA` is `'false'`. -/
def deployPhase3 (env : DeployEnv) (api : RemoteApi) (bp : DeployPackage) (rs : RunState) :
    RunState :=
  match bp.sampleData with
  | none => rs
  | some sd =>
    if env.includeSampleData = some "false" then rs
    else
      let rs1 := runSampleData api sd rs.st.createdResources rs
      { rs1 with st := { rs1.st with
          completedSteps := rs1.st.completedSteps ++ ["sample_data_deployed"] } }

/-- `deployPhase4_Integrations`: placeholder, records the step only. -/
def deployPhase4 (rs : RunState) : RunState :=
  { rs with st := { rs.st with
      completedSteps := rs.st.completedSteps ++ ["integrations_deployed"] } }

/-- `deployPhase5_Finalization`: creates the summary page (a failure here
propagates as a hard failure), then saves local metadata (a file write, no
remote call) and records the step. -/
def deployPhase5 (api : RemoteApi) (rs : RunState) : Except String Unit × RunState :=
  let rs1 := { rs with calls := rs.calls ++ [RemoteCall.summaryPageCreate] }
  match api.summaryPageResult with
  | Except.error e => (Except.error e, rs1)
  | Except.ok pid =>
    let rs2 := { rs1 with st := { rs1.st with
        createdResources := rs1.st.createdResources
          ++ [({ type := "summary_page", name := none, id := pid } : CreatedResource)] } }
    (Except.ok (),
     { rs2 with st := { rs2.st with
        completedSteps := rs2.st.completedSteps ++ ["deployment_finalized"] } })

/-- `deployConstructionTemplate` from `scripts/deploy-construction.js`: the
phase pipeline with hard failures short-circuiting to the top-level `catch`
(which only logs; state and trace are returned alongside the outcome). -/
def deployRun (env : DeployEnv) (artifact : Option DeployPackage) (api : RemoteApi) :
    Except String Unit × RunState :=
  match initEnvironment env initialRunState with
  | (Except.error e, rs) => (Except.error e, rs)
  | (Except.ok _, rs0) =>
    match loadBuildArtifacts artifact rs0 with
    | (Except.error e, rs) => (Except.error e, rs)
    | (Except.ok bp, rs1) =>
      match initNotionClient api rs1 with
      | (Except.error e, rs) => (Except.error e, rs)
      | (Except.ok _, rs2) =>
        let rs3 := deployPhase1 api bp rs2
        let rs4 := deployPhase2 rs3
        let rs5 := deployPhase3 env api bp rs4
        let rs6 := deployPhase4 rs5
        deployPhase5 api rs6

/-! ### Schema-to-Notion property translation (`scripts/deploy-construction.js`) -/

/-- A Notion property configuration as `convertPropertyToNotion` and the
default property table build it. -/
inductive NotionProperty
  | title
  | select (options : List (String × String))
  | number (format : String)
  | date
  | checkbox
  | richText
  | url
  | email
  | phoneNumber
  | createdTime
deriving DecidableEq, Repr

/-- `convertPropertyToNotion` from `scripts/deploy-construction.js`: the
`switch` on `prop.type`, whose `default` branch yields a rich-text property.
`prop.options?.map(...) || []` maps an absent option list to `[]`, and
`prop.format || 'number'` is JavaScript-truthy defaulting. -/
def convertPropertyToNotion (prop : PropDef) : NotionProperty :=
  if prop.type = "title" then NotionProperty.title
  else if prop.type = "select" then
    NotionProperty.select ((prop.options.getD []).map (fun opt => (opt, "default")))
  else if prop.type = "number" then NotionProperty.number (jsOr prop.format "number")
  else if prop.type = "date" then NotionProperty.date
  else if prop.type = "checkbox" then NotionProperty.checkbox
  else if prop.type = "text" then NotionProperty.richText
  else if prop.type = "url" then NotionProperty.url
  else if prop.type = "email" then NotionProperty.email
  else if prop.type = "phone" then NotionProperty.phoneNumber
  else NotionProperty.richText

/-- The `defaultProperties` table of `convertSchemaToNotionProperties`. -/
def defaultNotionProperties : List (String × NotionProperty) :=
  [("Name", NotionProperty.title),
   ("Status", NotionProperty.select
      [("Planning", "yellow"), ("In Progress", "blue"),
       ("Completed", "green"), ("On Hold", "red")]),
   ("Created", NotionProperty.createdTime)]

/-- `convertSchemaToNotionProperties` from `scripts/deploy-construction.js`:
with a declared `properties` object each entry is converted in order;
without one the construction defaults are used. -/
def convertSchemaToNotionProperties (schema : SchemaDef) : List (String × NotionProperty) :=
  match schema.properties with
  | some props => props.map (fun p => (p.1, convertPropertyToNotion p.2))
  | none => defaultNotionProperties

/-- The `type` strings `convertPropertyToNotion` recognizes with a dedicated
branch. -/
def recognizedPropertyKinds : List String :=
  ["title", "select", "number", "date", "checkbox", "text", "url", "email", "phone"]

/-- Pairs each schema of a phase-1 list with the outcome the remote oracle
assigns to its create call, `i` being the index of the first call. -/
def databaseOutcomes (api : RemoteApi) : Nat → List DeploySchema →
    List (DeploySchema × Except String String)
  | _, [] => []
  | i, d :: rest => (d, api.databaseCreateResult i) :: databaseOutcomes api (i + 1) rest

/-- The `DeploymentError` phase 1 records for a failed create, `none` for a
success. -/
def failureRecord (pr : DeploySchema × Except String String) : Option DeploymentError :=
  match pr.2 with
  | Except.error m => some { phase := "databases", resource := pr.1.name, error := m }
  | Except.ok _ => none

/-- The `CreatedResource` phase 1 records for a successful create, `none` for
a failure. -/
def successRecord (pr : DeploySchema × Except String String) : Option CreatedResource :=
  match pr.2 with
  | Except.ok rid => some { type := "database", name := some pr.1.name, id := rid }
  | Except.error _ => none

/-! ### The view-kind inference, in the spec's vocabulary -/

/-- The spec's abstract view kinds.  The builder renders the board kind with
the platform's own name for it, the string `"kanban"`. -/
inductive ViewKind
  | board
  | timeline
  | table
  | calendar
deriving DecidableEq, Repr

def ViewKind.render : ViewKind → String
  | .board => "kanban"
  | .timeline => "timeline"
  | .table => "table"
  | .calendar => "calendar"

/-- Modelled from the spec's substring rules for view-kind inference, amended
with the calendar rule the code applies after the dashboard/overview rule. -/
def inferKind (name : String) : ViewKind :=
  if strIncludes name "kanban" then ViewKind.board
  else if strIncludes name "timeline" || strIncludes name "schedule" then ViewKind.timeline
  else if strIncludes name "dashboard" || strIncludes name "overview" then ViewKind.table
  else if strIncludes name "calendar" then ViewKind.calendar
  else ViewKind.table

/-! ### Concrete inputs used by witnesses and counterexamples -/

/-- A remote API on which every operation succeeds. -/
def allOkApi : RemoteApi :=
  { probeResult := Except.ok "user-1"
    databaseCreateResult := fun _ => Except.ok "db-1"
    recordCreateResult := fun _ => Except.ok ()
    summaryPageResult := Except.ok "page-1" }

/-- A remote API whose identity probe fails. -/
def probeFailApi : RemoteApi :=
  { probeResult := Except.error "API token is invalid."
    databaseCreateResult := fun _ => Except.ok "db-1"
    recordCreateResult := fun _ => Except.ok ()
    summaryPageResult := Except.ok "page-1" }

/-- An environment with client and token set but `DEPLOYMENT_TIER` unset. -/
def noTierEnv : DeployEnv :=
  { clientName := some "Acme Construction", deploymentTier := none
    notionToken := some "secret-token", includeSampleData := none }

/-- An environment with none of the required variables set. -/
def emptyEnv : DeployEnv :=
  { clientName := none, deploymentTier := none, notionToken := none
    includeSampleData := none }

/-- A one-schema build package as the deploy script would load it. -/
def oneSchemaPkg : DeployPackage :=
  { client := "Acme Construction", tier := "professional"
    schemas := [{ name := "projects", schema := { title := some "Projects", properties := none } }]
    sampleData := none }

/-! ## Theorems -/

/-- Claim C8: tier-catalog monotonicity — every resource-type name of a lower
tier's configuration is also in every higher tier's configuration, for the
order starter < professional < enterprise. -/
theorem tier_resourceTypes_monotone :
    (templateConfigs Tier.starter).databases ⊆ (templateConfigs Tier.professional).databases
    ∧ (templateConfigs Tier.professional).databases ⊆
        (templateConfigs Tier.enterprise).databases := by
  decide

/-- Claim C7: with seed data included, the estimated total unit count is
strictly increasing across ascending tiers. -/
theorem estimate_strictly_monotone :
    (estimateDeploymentCost Tier.enterprise true).totalApiCalls >
      (estimateDeploymentCost Tier.professional true).totalApiCalls
    ∧ (estimateDeploymentCost Tier.professional true).totalApiCalls >
      (estimateDeploymentCost Tier.starter true).totalApiCalls := by
  decide

/-- Claim C6: for every tier and either seed-data choice, the estimate's total
unit count is 2 per resource-type, 1 per view, 1 per field, 3 per integration
and 2 per automation, plus 1 per seed record when seed data is included, plus
the constant base overhead of 20; and the estimated seconds are the ceiling of
the total divided by the assumed throughput of 3 units per second. -/
theorem estimate_formula (tier : Tier) (includeSampleData : Bool) :
    (estimateDeploymentCost tier includeSampleData).totalApiCalls =
      2 * (tierCosts tier).databases + (tierCosts tier).views + (tierCosts tier).properties
        + 3 * (tierCosts tier).integrations + 2 * (tierCosts tier).automations
        + (if includeSampleData then sampleDataTotal (tierCosts tier) else 0) + 20
    ∧ (estimateDeploymentCost tier includeSampleData).estimatedSeconds =
      ((estimateDeploymentCost tier includeSampleData).totalApiCalls + 2) / 3 := by
  cases tier <;> cases includeSampleData <;> exact ⟨by decide, by decide⟩

/-- Claim C5, counterexample: the claim's rule list sends every name outside
the kanban/timeline/schedule/dashboard/overview substring cases to the table
kind, but the code has a further calendar rule: a name containing "calendar"
is classified as a calendar view, not a table. -/
theorem getViewType_calendar_not_table :
    getViewType "crew-calendar" = "calendar" ∧ getViewType "crew-calendar" ≠ "table" := by
  decide

/-- Claim C5, amended: view-kind inference is a total deterministic function
into {board (rendered "kanban"), timeline, table, calendar}: kanban-names give
board; then timeline/schedule-names give timeline; then
dashboard/overview-names give table; then calendar-names give calendar; every
other name gives table. -/
theorem getViewType_matches_inferKind (name : String) :
    getViewType name = (inferKind name).render
    ∧ getViewType name ∈ ["kanban", "timeline", "table", "calendar"] := by
  unfold getViewType inferKind
  constructor
  · split_ifs <;> rfl
  · split_ifs <;> decide

/-- Claim C3, counterexample: with the schema store present but lacking
entries for the tier's resource-type names, no default schema is substituted —
the starter tier lists five resource types, yet compilation over an empty
store yields no schema entries at all (rather than five defaulted ones). -/
theorem buildDatabaseSchemas_empty_store :
    buildDatabaseSchemas Tier.starter (some []) = []
    ∧ (templateConfigs Tier.starter).databases.length = 5 := by
  decide

/-- Claim C3, amended: compilation never fails on missing schema definitions,
but degrades differently than claimed — with the store present, the build
contains exactly the store entries whose names are in the tier's resource-type
list (names with no store entry are silently omitted, nothing is tagged); with
the store directory absent, the fallback is the single built-in "projects"
default schema regardless of tier. -/
theorem buildDatabaseSchemas_characterization (tier : Tier)
    (entries : List (String × SchemaDef)) :
    (∀ b : BuiltSchema,
      b ∈ buildDatabaseSchemas tier (some entries) ↔
        ((b.name, b.schema) ∈ entries
          ∧ (templateConfigs tier).databases.contains b.name = true
          ∧ b.tier = tier.name))
    ∧ buildDatabaseSchemas tier none = generateDefaultSchemas tier
    ∧ (generateDefaultSchemas tier).map BuiltSchema.name = ["projects"] := by
  refine ⟨?_, rfl, rfl⟩
  intro b
  simp only [buildDatabaseSchemas, List.mem_filterMap]
  constructor
  · rintro ⟨⟨n, s⟩, he, hf⟩
    split_ifs at hf with hc
    cases hf
    exact ⟨he, hc, rfl⟩
  · rintro ⟨hmem, hc, ht⟩
    refine ⟨(b.name, b.schema), hmem, ?_⟩
    cases b with
    | mk n s t => simp_all

/-- Claim C3, amended-claim witness: a store entry whose name is in the tier
list does appear in the compiled schema list. -/
theorem buildDatabaseSchemas_characterization_witness :
    ({ name := "projects", schema := { title := some "Projects", properties := none },
       tier := "starter" } : BuiltSchema)
      ∈ buildDatabaseSchemas Tier.starter
          (some [("projects", { title := some "Projects", properties := none })]) :=
  ((buildDatabaseSchemas_characterization Tier.starter
      [("projects", { title := some "Projects", properties := none })]).1 _).mpr
    (by refine ⟨?_, ?_, ?_⟩ <;> decide)

/-- Claim C9, counterexample: the compiler does not validate the client
identity — building for the reserved identity "notion" (which the validation
script rejects) still produces a build package carrying that client. -/
theorem buildTemplate_accepts_reserved_client :
    (buildTemplate "notion" Tier.starter false (some []) 0).client = "notion"
    ∧ validateClientName "notion" = Except.error "Client name cannot be a reserved word" :=
  ⟨rfl, rfl⟩

/-- Claim C9, amended: the client-identity rules live in the separate input
validation script, not in the compiler — `validateClientName` accepts an
identity exactly when it contains no path-unsafe character and is not a
reserved word case-insensitively (the empty identity passes it; emptiness is
enforced only by the separate minimum-length rule), while the compiler itself
accepts any identity and produces a build package for it. -/
theorem client_identity_validation_rules (client : String) (tier : Tier) (b : Bool)
    (store : Option (List (String × SchemaDef))) (now : Nat) :
    ((validateClientName client = Except.ok ()) ↔
      (client.toList.any (fun c => problematicChars.contains c) = false
        ∧ reservedWords.contains (strLower client) = false))
    ∧ validateClientName "" = Except.ok ()
    ∧ (buildTemplate client tier b store now).client = client
    ∧ (buildTemplate client tier b store now).tier = tier.name := by
  refine ⟨?_, rfl, rfl, rfl⟩
  unfold validateClientName
  split_ifs with h1 h2 <;> simp_all

/-- Claim C9, amended-claim witness: the identity "Acme Co" is accepted by the
validator, and the compiler builds a package for it. -/
theorem client_identity_validation_rules_witness :
    validateClientName "Acme Co" = Except.ok ()
    ∧ (buildTemplate "Acme Co" Tier.starter false (some []) 0).client = "Acme Co" :=
  ⟨(client_identity_validation_rules "Acme Co" Tier.starter false (some []) 0).1.mpr
      (by constructor <;> decide),
   (client_identity_validation_rules "Acme Co" Tier.starter false (some []) 0).2.2.1⟩

/-- Claim C10: field-to-Notion-property translation is total — each recognized
kind string maps to its dedicated Notion representation, any other kind string
falls back to a rich-text property, and a schema with no declared `properties`
receives the default Name/Status/Created property set. -/
theorem property_translation_total (p : PropDef) (s : SchemaDef) :
    (∀ opts fmt, convertPropertyToNotion { type := "title", options := opts, format := fmt }
        = NotionProperty.title)
    ∧ (∀ opts fmt, convertPropertyToNotion { type := "select", options := opts, format := fmt }
        = NotionProperty.select ((opts.getD []).map (fun opt => (opt, "default"))))
    ∧ (∀ opts fmt, convertPropertyToNotion { type := "number", options := opts, format := fmt }
        = NotionProperty.number (jsOr fmt "number"))
    ∧ (∀ opts fmt, convertPropertyToNotion { type := "date", options := opts, format := fmt }
        = NotionProperty.date)
    ∧ (∀ opts fmt, convertPropertyToNotion { type := "checkbox", options := opts, format := fmt }
        = NotionProperty.checkbox)
    ∧ (∀ opts fmt, convertPropertyToNotion { type := "text", options := opts, format := fmt }
        = NotionProperty.richText)
    ∧ (∀ opts fmt, convertPropertyToNotion { type := "url", options := opts, format := fmt }
        = NotionProperty.url)
    ∧ (∀ opts fmt, convertPropertyToNotion { type := "email", options := opts, format := fmt }
        = NotionProperty.email)
    ∧ (∀ opts fmt, convertPropertyToNotion { type := "phone", options := opts, format := fmt }
        = NotionProperty.phoneNumber)
    ∧ (p.type ∉ recognizedPropertyKinds → convertPropertyToNotion p = NotionProperty.richText)
    ∧ (s.properties = none → convertSchemaToNotionProperties s = defaultNotionProperties) := by
  refine ⟨fun _ _ => rfl, fun _ _ => rfl, fun _ _ => rfl, fun _ _ => rfl, fun _ _ => rfl,
    fun _ _ => rfl, fun _ _ => rfl, fun _ _ => rfl, fun _ _ => rfl, ?_, ?_⟩
  · intro h
    simp only [recognizedPropertyKinds, List.mem_cons, List.not_mem_nil, or_false,
      not_or] at h
    obtain ⟨h1, h2, h3, h4, h5, h6, h7, h8, h9⟩ := h
    simp [convertPropertyToNotion, h1, h2, h3, h4, h5, h6, h7, h8, h9]
  · intro h
    simp [convertSchemaToNotionProperties, h]

/-- Claim C10, witness: an unrecognized kind ("formula") falls back to
rich-text, and a schema with no declared fields gets the defaults. -/
theorem property_translation_total_witness :
    convertPropertyToNotion { type := "formula", options := none, format := none }
      = NotionProperty.richText
    ∧ convertSchemaToNotionProperties { title := some "Projects", properties := none }
      = defaultNotionProperties :=
  ⟨(property_translation_total { type := "formula", options := none, format := none }
      { title := some "Projects", properties := none }).2.2.2.2.2.2.2.2.2.1 (by decide),
   (property_translation_total { type := "formula", options := none, format := none }
      { title := some "Projects", properties := none }).2.2.2.2.2.2.2.2.2.2 rfl⟩

/-- The phase-1 loop, characterized: every schema in the list is attempted in
order, the trace gains exactly one create call per schema, the error list
gains exactly the failed creates' records, the created-resource list gains
exactly the successful creates' records, and no phase step is recorded by the
loop itself. -/
theorem runDatabases_spec (api : RemoteApi) (L : List DeploySchema) (rs : RunState) :
    (runDatabases api L rs).calls
        = rs.calls ++ L.map (fun d => RemoteCall.databaseCreate d.name)
    ∧ (runDatabases api L rs).st.errors
        = rs.st.errors ++ (databaseOutcomes api rs.databaseCalls L).filterMap failureRecord
    ∧ (runDatabases api L rs).st.createdResources
        = rs.st.createdResources
            ++ (databaseOutcomes api rs.databaseCalls L).filterMap successRecord
    ∧ (runDatabases api L rs).st.completedSteps = rs.st.completedSteps
    ∧ (runDatabases api L rs).st.tier = rs.st.tier
    ∧ (runDatabases api L rs).st.client = rs.st.client := by
  induction L generalizing rs with
  | nil => simp [runDatabases, databaseOutcomes]
  | cons d rest ih =>
    cases hres : api.databaseCreateResult rs.databaseCalls with
    | ok rid =>
      simp [runDatabases, hres, databaseOutcomes, failureRecord, successRecord, ih,
        List.append_assoc]
    | error m =>
      simp [runDatabases, hres, databaseOutcomes, failureRecord, successRecord, ih,
        List.append_assoc]

/-- Claim C1: soft-failure isolation in phase 1 — for every build package and
every pattern of per-schema create outcomes, every schema is attempted (one
create call per schema, in list order, regardless of earlier failures), the
phase always completes with its step recorded, the error list ends with
exactly one record per failed schema and the created-resource list with
exactly one record per successfully created schema. -/
theorem phase1_soft_failure_isolation (api : RemoteApi) (bp : DeployPackage) (rs : RunState) :
    (deployPhase1 api bp rs).calls
        = rs.calls ++ bp.schemas.map (fun d => RemoteCall.databaseCreate d.name)
    ∧ (deployPhase1 api bp rs).st.errors
        = rs.st.errors ++ (databaseOutcomes api rs.databaseCalls bp.schemas).filterMap
            failureRecord
    ∧ (deployPhase1 api bp rs).st.createdResources
        = rs.st.createdResources
            ++ (databaseOutcomes api rs.databaseCalls bp.schemas).filterMap successRecord
    ∧ (deployPhase1 api bp rs).st.completedSteps
        = rs.st.completedSteps ++ ["databases_deployed"] := by
  obtain ⟨hcalls, herr, hres, hsteps, -, -⟩ := runDatabases_spec api bp.schemas rs
  exact ⟨hcalls, herr, hres, by simp [deployPhase1, hsteps]⟩

theorem addRows_st (api : RemoteApi) (nm : String) (rows : List SampleRow) (rs : RunState) :
    (addRows api nm rows rs).st = rs.st := by
  induction rows generalizing rs with
  | nil => rfl
  | cons r rest ih => simp [addRows, ih]

theorem runSampleData_st (api : RemoteApi) (sd : List (String × List SampleRow))
    (rl : List CreatedResource) (rs : RunState) :
    (runSampleData api sd rl rs).st = rs.st := by
  induction rl generalizing rs with
  | nil => rfl
  | cons r rest ih =>
    by_cases h : r.type = "database"
    · simp [runSampleData, h, ih, addRows_st]
    · simp [runSampleData, h, ih]

theorem deployPhase3_tier (env : DeployEnv) (api : RemoteApi) (bp : DeployPackage)
    (rs : RunState) : (deployPhase3 env api bp rs).st.tier = rs.st.tier := by
  unfold deployPhase3
  cases bp.sampleData with
  | none => rfl
  | some sd =>
    by_cases h : env.includeSampleData = some "false"
    · simp [h]
    · simp [h, runSampleData_st]

theorem deployPhase5_tier (api : RemoteApi) (rs : RunState) :
    (deployPhase5 api rs).2.st.tier = rs.st.tier := by
  unfold deployPhase5
  cases api.summaryPageResult <;> rfl

theorem jsOr_of_falsy (o : Option String) (d : String) (h : jsTruthy o = false) :
    jsOr o d = d := by
  cases o with
  | none => rfl
  | some s =>
    have hs : s = "" := by simpa [jsTruthy] using h
    simp [jsOr, hs]

/-- Whatever happens downstream, the tier recorded in the deployment state is
the one `initEnvironment` resolved from the environment. -/
theorem deployRun_tier (env : DeployEnv) (artifact : Option DeployPackage) (api : RemoteApi) :
    (deployRun env artifact api).2.st.tier = some (jsOr env.deploymentTier "professional") := by
  unfold deployRun
  cases hc : jsTruthy env.clientName with
  | false => simp [initEnvironment, hc, initialRunState, initialDeploymentState]
  | true =>
    cases ht : jsTruthy env.notionToken with
    | false => simp [initEnvironment, hc, ht, initialRunState, initialDeploymentState]
    | true =>
      cases artifact with
      | none =>
        simp [initEnvironment, loadBuildArtifacts, hc, ht, initialRunState,
          initialDeploymentState]
      | some bp =>
        cases hp : api.probeResult with
        | error e =>
          simp [initEnvironment, loadBuildArtifacts, initNotionClient, hc, ht, hp,
            initialRunState, initialDeploymentState]
        | ok u =>
          simp [initEnvironment, loadBuildArtifacts, initNotionClient, hc, ht, hp,
            initialRunState, initialDeploymentState, deployPhase5_tier, deployPhase4,
            deployPhase3_tier, deployPhase2, deployPhase1]
          exact (runDatabases_spec api bp.schemas
            { st := { client := env.clientName
                      tier := some (jsOr env.deploymentTier "professional")
                      completedSteps := ["environment_init", "artifacts_loaded",
                        "notion_connected"]
                      createdResources := [], errors := [] }
              calls := [RemoteCall.identityProbe], databaseCalls := 0,
              recordCalls := 0 }).2.2.2.2.1

/-- Claim C2: hard-failure short-circuit — if the identity probe fails, the
run does not succeed, no database create call is ever issued, the
databases-deployed step is never recorded, and no resource is created. -/
theorem probe_failure_short_circuit (env : DeployEnv) (artifact : Option DeployPackage)
    (api : RemoteApi) (e : String) (h : api.probeResult = Except.error e) :
    (deployRun env artifact api).1 ≠ Except.ok ()
    ∧ (∀ n, RemoteCall.databaseCreate n ∉ (deployRun env artifact api).2.calls)
    ∧ "databases_deployed" ∉ (deployRun env artifact api).2.st.completedSteps
    ∧ (deployRun env artifact api).2.st.createdResources = [] := by
  unfold deployRun
  cases hc : jsTruthy env.clientName with
  | false => simp [initEnvironment, hc, initialRunState, initialDeploymentState]
  | true =>
    cases ht : jsTruthy env.notionToken with
    | false => simp [initEnvironment, hc, ht, initialRunState, initialDeploymentState]
    | true =>
      cases artifact with
      | none =>
        simp [initEnvironment, loadBuildArtifacts, hc, ht, initialRunState,
          initialDeploymentState]
      | some bp =>
        simp [initEnvironment, loadBuildArtifacts, initNotionClient, hc, ht, h,
          initialRunState, initialDeploymentState]

/-- Claim C2, witness: with the probe failing and a one-schema package staged,
the run aborts having created nothing. -/
theorem probe_failure_short_circuit_witness :
    (deployRun noTierEnv (some oneSchemaPkg) probeFailApi).1 ≠ Except.ok ()
    ∧ RemoteCall.databaseCreate "projects"
        ∉ (deployRun noTierEnv (some oneSchemaPkg) probeFailApi).2.calls
    ∧ "databases_deployed"
        ∉ (deployRun noTierEnv (some oneSchemaPkg) probeFailApi).2.st.completedSteps
    ∧ (deployRun noTierEnv (some oneSchemaPkg) probeFailApi).2.st.createdResources = [] :=
  ⟨(probe_failure_short_circuit noTierEnv (some oneSchemaPkg) probeFailApi
      "API token is invalid." rfl).1,
   (probe_failure_short_circuit noTierEnv (some oneSchemaPkg) probeFailApi
      "API token is invalid." rfl).2.1 "projects",
   (probe_failure_short_circuit noTierEnv (some oneSchemaPkg) probeFailApi
      "API token is invalid." rfl).2.2.1,
   (probe_failure_short_circuit noTierEnv (some oneSchemaPkg) probeFailApi
      "API token is invalid." rfl).2.2.2⟩

/-- Claim C4, counterexample: with `DEPLOYMENT_TIER` absent but the other
inputs present, the run does not abort — it proceeds to create resources
(the claim requires an immediate abort with no resource creation for each
missing required input, the tier identifier included). -/
theorem missing_tier_not_hard_failure :
    (deployRun noTierEnv (some oneSchemaPkg) allOkApi).1 = Except.ok ()
    ∧ (deployRun noTierEnv (some oneSchemaPkg) allOkApi).2.st.createdResources ≠ []
    ∧ RemoteCall.databaseCreate "projects"
        ∈ (deployRun noTierEnv (some oneSchemaPkg) allOkApi).2.calls :=
  ⟨rfl, by decide, by decide⟩

/-- Claim C4, amended: a missing (or empty) client identity or API token is a
hard failure at initialization — the run aborts with no remote call issued and
no resource created; a missing tier identifier, however, is not — it is
defaulted to "professional". -/
theorem missing_inputs_behavior (env : DeployEnv) (artifact : Option DeployPackage)
    (api : RemoteApi) :
    ((jsTruthy env.clientName = false ∨ jsTruthy env.notionToken = false) →
      (deployRun env artifact api).1 ≠ Except.ok ()
      ∧ (deployRun env artifact api).2.calls = []
      ∧ (deployRun env artifact api).2.st.createdResources = [])
    ∧ (jsTruthy env.deploymentTier = false →
      (deployRun env artifact api).2.st.tier = some "professional") := by
  constructor
  · intro hmiss
    rcases hmiss with hc | ht
    · unfold deployRun
      simp [initEnvironment, hc, initialRunState, initialDeploymentState]
    · unfold deployRun
      cases hc : jsTruthy env.clientName with
      | false => simp [initEnvironment, hc, initialRunState, initialDeploymentState]
      | true => simp [initEnvironment, hc, ht, initialRunState, initialDeploymentState]
  · intro htier
    rw [deployRun_tier, jsOr_of_falsy env.deploymentTier "professional" htier]

/-- Claim C4, amended-claim witness: with every input absent the run aborts
having issued no call and created nothing, and the state's tier was defaulted
to "professional". -/
theorem missing_inputs_behavior_witness :
    (deployRun emptyEnv none allOkApi).1 ≠ Except.ok ()
    ∧ (deployRun emptyEnv none allOkApi).2.calls = []
    ∧ (deployRun emptyEnv none allOkApi).2.st.createdResources = []
    ∧ (deployRun emptyEnv none allOkApi).2.st.tier = some "professional" :=
  ⟨((missing_inputs_behavior emptyEnv none allOkApi).1 (Or.inl rfl)).1,
   ((missing_inputs_behavior emptyEnv none allOkApi).1 (Or.inl rfl)).2.1,
   ((missing_inputs_behavior emptyEnv none allOkApi).1 (Or.inl rfl)).2.2,
   (missing_inputs_behavior emptyEnv none allOkApi).2 rfl⟩

end ConstPM
